import Mathlib

/-
  Verification of the NLWeb post-ranking stage (code/python/core/post_ranking.py)
  and the Google Custom Search retrieval provider
  (code/python/retrieval_providers/google_custom_search_engine_client.py).

  The Python code is shallowly embedded: semi-structured `schema_object`
  values become a JSON value type, Python truthiness / `dict.get` / `or` /
  `str()` / `', '.join` are modelled explicitly, exceptions become `Except`,
  and the router's awaited external calls become an explicit event trace.
-/

namespace NLWeb

/-- A Python/JSON value, as produced by parsing JSON metadata.  Numbers are
modelled as integers (no claim depends on non-integral numerics). -/
inductive JsonValue where
  | null
  | bool (b : Bool)
  | num (n : Int)
  | str (s : String)
  | arr (elems : List JsonValue)
  | obj (fields : List (String × JsonValue))

/-- Python truthiness (`bool(v)`): None, False, 0, "", [], {} are falsy. -/
def pyTruthy : JsonValue → Bool
  | .null => false
  | .bool b => b
  | .num n => n != 0
  | .str s => s != ""
  | .arr elems => !elems.isEmpty
  | .obj fields => !fields.isEmpty

/-- `v.isObj` holds when the value is a mapping (Python dict). -/
def JsonValue.isObj : JsonValue → Bool
  | .obj _ => true
  | _ => false

/-- `v.isStr` holds when the value is a string. -/
def JsonValue.isStr : JsonValue → Bool
  | .str _ => true
  | _ => false

/-- Python `d.get(k)` on a dict: the value if the key is present, else None.
Dicts are modelled as association lists looked up at the first occurrence
(Python dict keys are unique). -/
def pyGet (fields : List (String × JsonValue)) (k : String) : JsonValue :=
  (fields.lookup k).getD .null

/-- Python `d.get(k, default)`. -/
def pyGetD (fields : List (String × JsonValue)) (k : String) (dflt : JsonValue) : JsonValue :=
  (fields.lookup k).getD dflt

/-- Python `a or b`: the first operand when truthy, else the second. -/
def pyOr (a b : JsonValue) : JsonValue :=
  if pyTruthy a then a else b

/-- Python subscription `v[k]` with a string key: succeeds only on a dict
containing the key; any other shape raises (TypeError / KeyError). -/
def pyGetItem (v : JsonValue) (k : String) : Except Unit JsonValue :=
  match v with
  | .obj fields =>
      match fields.lookup k with
      | some x => .ok x
      | none => .error ()
  | _ => .error ()

def backslashChar : Char := Char.ofNat 92

def singleQuoteChar : Char := Char.ofNat 39

def doubleQuoteChar : Char := Char.ofNat 34

/-- Escaping of one character inside a Python `repr` string literal
(backslash and the single quote; control-character escapes are not needed
by any claim). -/
def reprEscChar (c : Char) : List Char :=
  if c = backslashChar then [backslashChar, backslashChar]
  else if c = singleQuoteChar then [backslashChar, singleQuoteChar]
  else [c]

def reprEscapeList : List Char → List Char
  | [] => []
  | c :: cs => reprEscChar c ++ reprEscapeList cs

mutual

/-- Python `repr(v)` for JSON-shaped values: None/True/False, decimal
integers, single-quoted strings, `[...]` lists and `\x7b...\x7d` dicts with
`, ` separators. -/
def pyRepr : JsonValue → String
  | .null => "None"
  | .bool true => "True"
  | .bool false => "False"
  | .num n => toString n
  | .str s => String.mk (singleQuoteChar :: (reprEscapeList s.toList ++ [singleQuoteChar]))
  | .arr elems => "[" ++ pyReprSeq elems ++ "]"
  | .obj fields => "\x7b" ++ pyReprFields fields ++ "\x7d"

def pyReprSeq : List JsonValue → String
  | [] => ""
  | [v] => pyRepr v
  | v :: w :: t => pyRepr v ++ ", " ++ pyReprSeq (w :: t)

def pyReprFields : List (String × JsonValue) → String
  | [] => ""
  | [(k, v)] => pyRepr (.str k) ++ ": " ++ pyRepr v
  | (k, v) :: p :: t => pyRepr (.str k) ++ ": " ++ pyRepr v ++ ", " ++ pyReprFields (p :: t)

end

/-- Python `str(v)`: the string itself for strings, `repr`-style rendering
otherwise. -/
def pyStr (v : JsonValue) : String :=
  match v with
  | .str s => s
  | _ => pyRepr v

/-- The characters of a string up to (excluding) the first occurrence of
`sep`; the whole string when `sep` does not occur.  Models
`s.split(sep)[0]`. -/
def charsBefore (sep : List Char) : List Char → List Char
  | [] => []
  | c :: rest =>
      if sep.isPrefixOf (c :: rest) then []
      else c :: charsBefore sep rest

/-- `address.split(", \x7b")[0]`: the prefix of the string before the
literal `", \x7b"` separator. -/
def beforeDictMarker (s : String) : String :=
  String.mk (charsBefore [',', ' ', '\x7b'] s.toList)

/-- Python `"\x7b" in s`. -/
def containsBrace (s : String) : Bool :=
  s.toList.contains '\x7b'

/-! ### The address classifier (`check_and_send_map_message`, post_ranking.py) -/

/-- The `or`-chain of post_ranking.py lines 56-59:
`schema_obj.get('address') or schema_obj.get('location') or
 schema_obj.get('streetAddress') or schema_obj.get('postalAddress')`. -/
def addressCandidate (fields : List (String × JsonValue)) : JsonValue :=
  pyOr (pyGet fields "address")
    (pyOr (pyGet fields "location")
      (pyOr (pyGet fields "streetAddress") (pyGet fields "postalAddress")))

/-- The four structured-address components probed in fixed order
(post_ranking.py line 70). -/
def ADDRESS_FIELDS : List String :=
  ["streetAddress", "addressLocality", "addressRegion", "postalCode"]

/-- Lines 70-75: for each of the four component fields present in the
structured address, append `str(value)` unless the value is a dict. -/
def scalarFieldParts (address : List (String × JsonValue)) : List JsonValue :=
  ADDRESS_FIELDS.foldl
    (fun acc field =>
      match address.lookup field with
      | some value => if value.isObj then acc else acc ++ [JsonValue.str (pyStr value)]
      | none => acc)
    []

/-- Lines 77-83: the country contribution.  A dict country contributes its
raw `name` value (appended without `str()` conversion); a string country is
appended unless it starts with a brace; anything else contributes nothing. -/
def countryParts (address : List (String × JsonValue)) : List JsonValue :=
  match address.lookup "addressCountry" with
  | some (.obj country) =>
      match country.lookup "name" with
      | some nm => [nm]
      | none => []
  | some (.str country) =>
      if country.toList.head? = some '\x7b' then [] else [.str country]
  | _ => []

/-- Python `', '.join` demands every element be a string; a non-string
element raises TypeError. -/
def strParts : List JsonValue → Except Unit (List String)
  | [] => .ok []
  | .str s :: t => (strParts t).map (fun r => s :: r)
  | _ :: _ => .error ()

/-- `', '.join(address_parts)` (line 86), propagating the TypeError raised
on a non-string part. -/
def pyJoin (parts : List JsonValue) : Except Unit String :=
  (strParts parts).map (String.intercalate ", ")

/-- Lines 61-89: normalisation of the raw address candidate.  A string
containing a brace is cut at the `", \x7b"` marker; a dict is flattened to
the comma-joined parts (None when no part was collected); any other shape
passes through unchanged. -/
def resolveAddressValue (address : JsonValue) : Except Unit JsonValue :=
  match address with
  | .str s =>
      if containsBrace s then .ok (.str (beforeDictMarker s)) else .ok (.str s)
  | .obj f =>
      let parts := scalarFieldParts f ++ countryParts f
      if parts.isEmpty then .ok .null
      else (pyJoin parts).map JsonValue.str
  | v => .ok v

/-- Lines 53-89: the full per-schema_object resolution.  A non-dict
schema_object leaves `address = None`. -/
def resolveAddress (schemaObj : JsonValue) : Except Unit JsonValue :=
  match schemaObj with
  | .obj fields => resolveAddressValue (addressCandidate fields)
  | _ => .ok .null

/-- One ranked result, as accessed by the classifier: the optional `name`
entry and the optional `schema_object` entry of the result dict. -/
structure RankedResult where
  name : Option JsonValue
  schema_object : Option JsonValue

/-- One entry of the emitted map: `\x7b'title': ..., 'address': str(...)\x7d`
(lines 92-95). -/
structure MapLocation where
  title : JsonValue
  address : String

/-- The `results_map` message (lines 105-109). -/
structure MapMessage where
  message_type : String
  atType : String
  locations : List MapLocation

def mkMapMessage (locations : List MapLocation) : MapMessage :=
  { message_type := "results_map", atType := "LocationMap", locations := locations }

/-- Lines 44-95, one loop iteration: skip when `schema_object` is missing;
otherwise resolve the address and, when the resolved value is truthy,
produce the map location for this result. -/
def processResult (r : RankedResult) : Except Unit (Option MapLocation) :=
  match r.schema_object with
  | none => .ok none
  | some schemaObj =>
      match resolveAddress schemaObj with
      | .error e => .error e
      | .ok address =>
          if pyTruthy address then
            .ok (some { title := r.name.getD (.str "Unnamed"), address := pyStr address })
          else
            .ok none

/-- The whole result loop: locations of the results with truthy resolved
addresses, in order; the first in-loop exception aborts the scan. -/
def collectLocations : List RankedResult → Except Unit (List MapLocation)
  | [] => .ok []
  | r :: rs =>
      match processResult r with
      | .error e => .error e
      | .ok loc? =>
          match collectLocations rs with
          | .error e => .error e
          | .ok locs => .ok (match loc? with | some l => l :: locs | none => locs)

/-- Line 103: `results_with_addr_count >= total_results / 2 and
results_with_addr_count > 0`.  Python compares with true division; over
naturals `count ≥ total / 2` in ℚ holds exactly when `total ≤ 2 * count`,
which keeps the check kernel-computable (the `quorumCheck_rat` theorem
below proves the equivalence with the true-division comparison). -/
def quorumCheck (count total : Nat) : Bool :=
  decide (total ≤ 2 * count) && decide (0 < count)

/-- The body of `check_and_send_map_message` inside the outer `try` (lines
36-120): the map message it decides to send, None when no message is due,
error when a scan exception escapes to the outer handler. -/
def checkAndSendCore (results : List RankedResult) : Except Unit (Option MapMessage) :=
  if results.isEmpty then .ok none
  else
    match collectLocations results with
    | .error e => .error e
    | .ok results_with_addresses =>
        if quorumCheck results_with_addresses.length results.length then
          .ok (some (mkMapMessage results_with_addresses))
        else
          .ok none

/-- The emission decision of `check_and_send_map_message` as observed from
outside: the outer `except Exception` (lines 122-125) turns any scan
exception into "no message". -/
def mapDecision (results : List RankedResult) : Option MapMessage :=
  match checkAndSendCore results with
  | .ok m => m
  | .error _ => none

/-- Whether one result contributes to the address count: its resolution
succeeds and yields a truthy value. -/
def hasResolvedAddress (r : RankedResult) : Bool :=
  match processResult r with
  | .ok (some _) => true
  | _ => false

/-- The number of results with a resolved, truthy address. -/
def addressedCount (results : List RankedResult) : Nat :=
  (results.filter hasResolvedAddress).length

/-! ### The post-ranking router (`PostRanking.do` / `SummarizeResults.do`) -/

/-- Modelled from the spec: the sender tag of a transcript message
(`core.schemas.SenderType`, not under src/); the summarizer only uses the
assistant sender. -/
inductive SenderType where
  | ASSISTANT
  | USER

/-- Modelled from the spec: the type tag of a transcript message
(`core.schemas.MessageType`, not under src/); the summarizer only uses the
result type. -/
inductive MessageType where
  | RESULT

/-- Modelled from the spec: a transcript entry (`core.schemas.Message`, not
under src/) with sender, type, content list and conversation identifier.
`send_message` receives `msg.to_dict()`; events carry the message itself,
standing for its faithful dict serialisation. -/
structure Message where
  sender_type : SenderType
  message_type : MessageType
  content : List JsonValue
  conversation_id : String

/-- The handler attributes read or written by the post-ranking stage. -/
structure HandlerState where
  connection_alive : Bool
  query_done : Bool
  generate_mode : String
  final_ranked_answers : List RankedResult
  messages : List Message
  summary : Option JsonValue
  conversation_id : String

/-- One observable external action of the stage, in program order:
a fire-and-forget map send scheduled via `asyncio.create_task`, an awaited
`run_prompt`, a transcript append, an awaited `send_message`, or the
completion signal `state.precheck_step_done`.  `invokedPrompt` records the
ranked list visible to the prompt at call time. -/
inductive Event where
  | scheduledMapSend (m : MapMessage)
  | invokedPrompt (name : String) (timeout : Nat) (ranked : List RankedResult)
  | appendedTranscript (m : Message)
  | sentMessage (m : Message)
  | markedStepDone (step : String)

/-- The result of running a stage: its external actions in order, the
handler state it leaves behind, and whether an exception escaped to the
caller (Python exceptions do not roll back prior mutations). -/
structure Outcome where
  events : List Event
  state : HandlerState
  raised : Bool

/-- `check_and_send_map_message` (lines 32-125): decide on the message,
then schedule the send inside the inner `try` (lines 114-118) whose failure
is swallowed, all inside the outer `try` (lines 122-125) that also
swallows scan errors.  Returns the scheduled sends and whether an exception
escaped to the caller.  `scheduleFails` is the oracle for a
`create_task` failure. -/
def check_and_send_map_message (results : List RankedResult) (scheduleFails : Bool) :
    List Event × Bool :=
  match checkAndSendCore results with
  | .error _ => ([], false)
  | .ok none => ([], false)
  | .ok (some m) => if scheduleFails then ([], false) else ([Event.scheduledMapSend m], false)

def SUMMARIZE_RESULTS_PROMPT_NAME : String := "SummarizeResultsPrompt"

/-- The summary transcript entry built on lines 145-151. -/
def summaryMessage (summary : JsonValue) (cid : String) : Message :=
  { sender_type := SenderType.ASSISTANT
    message_type := MessageType.RESULT
    content := [JsonValue.obj [("@type", JsonValue.str "Summary"), ("content", summary)]]
    conversation_id := cid }

/-- `SummarizeResults.do` (lines 136-158).  `respond` is the external
summarization capability (`run_prompt`), seen as a function of the ranked
answers the handler holds when it is invoked; its result may be any value,
None modelling "no response".  A missing `"summary"` key raises and the
exception escapes (state mutations made so far persist). -/
def summarizeDo (st : HandlerState) (respond : List RankedResult → JsonValue) : Outcome :=
  let st1 := { st with final_ranked_answers := st.final_ranked_answers.take 3 }
  let response := respond st1.final_ranked_answers
  let promptEvent := Event.invokedPrompt SUMMARIZE_RESULTS_PROMPT_NAME 20 st1.final_ranked_answers
  if !pyTruthy response then
    { events := [promptEvent], state := st1, raised := false }
  else
    match pyGetItem response "summary" with
    | .error _ => { events := [promptEvent], state := st1, raised := true }
    | .ok summary =>
        let st2 := { st1 with summary := some summary }
        let msg := summaryMessage summary st2.conversation_id
        let st3 := { st2 with messages := st2.messages ++ [msg] }
        { events := [promptEvent, Event.appendedTranscript msg, Event.sentMessage msg,
                     Event.markedStepDone "post_ranking"]
          state := st3
          raised := false }

/-- `PostRanking.do` (lines 16-30): abort when the connection is dead,
otherwise classify, then dispatch on `generate_mode`. -/
def postRankingDo (st : HandlerState) (respond : List RankedResult → JsonValue)
    (scheduleFails : Bool) : Outcome :=
  if !st.connection_alive then
    { events := [], state := { st with query_done := true }, raised := false }
  else
    let c := check_and_send_map_message st.final_ranked_answers scheduleFails
    if c.2 then { events := c.1, state := st, raised := true }
    else if st.generate_mode = "none" then { events := c.1, state := st, raised := false }
    else if st.generate_mode = "summarize" then
      let o := summarizeDo st respond
      { events := c.1 ++ o.events, state := o.state, raised := o.raised }
    else { events := c.1, state := st, raised := false }

/-! ### The Google Custom Search client
(`google_custom_search_engine_client.py`) -/

/-- The configured credentials and endpoint of a constructed client (the
constructor rejects configurations without key or cx). -/
structure GoogleClientCfg where
  api_key : String
  cx : String
  api_endpoint : String

/-- The `site` argument: `Union[str, List[str]]`. -/
inductive SiteArg where
  | strArg (s : String)
  | listArg (sites : List String)

/-- Python truthiness for the site argument. -/
def siteTruthy : SiteArg → Bool
  | .strArg s => s != ""
  | .listArg sites => !sites.isEmpty

/-- A failure of the HTTP round-trip: an `httpx.HTTPError` or any other
exception raised while performing the request and decoding its body. -/
inductive NetError where
  | httpError
  | unexpected

/-- The single GET request issued by `search` (line 79): the endpoint, the
query parameters, and the timeout in seconds. -/
structure HttpCall where
  url : String
  params : List (String × JsonValue)
  timeout : Nat

/-- Python list slicing `l[:n]`: a negative bound counts back from the end,
clamping at zero. -/
def pySlice (l : List α) (n : Int) : List α :=
  if 0 ≤ n then l.take n.toNat else l.take (l.length - (-n).toNat)

/-- Valid characters of a URL scheme after the leading letter. -/
def isSchemeChar (c : Char) : Bool :=
  c.isAlphanum || c = '+' || c = '-' || c = '.'

/-- Models `urllib.parse.urlparse`: strip a leading `scheme:` when the text
before the first colon is a well-formed scheme. -/
def stripScheme (cs : List Char) : List Char :=
  let pre := cs.takeWhile (fun c => c ≠ ':')
  if pre.length < cs.length && !pre.isEmpty
      && (pre.headD ' ').isAlpha && pre.all isSchemeChar then
    cs.drop (pre.length + 1)
  else cs

/-- Models `urllib.parse.urlparse(url).netloc`: the authority component,
present only when the remainder after the scheme starts with `//`. -/
def netlocOf (url : String) : String :=
  let rest := stripScheme url.toList
  if rest.take 2 = ['/', '/'] then
    String.mk ((rest.drop 2).takeWhile (fun c => c ≠ '/' && c ≠ '?' && c ≠ '#'))
  else ""

/-- `_extract_domain_from_url` (lines 43-51): empty netloc falls back to
"unknown", then a leading "www." is stripped; the non-string case stands
for `urlparse` raising, caught by the local handler. -/
def extract_domain_from_url (link : JsonValue) : String :=
  match link with
  | .str url =>
      let domain := if netlocOf url = "" then "unknown" else netlocOf url
      if domain.startsWith "www." then domain.drop 4 else domain
  | _ => "unknown"

/-- Escaping of one character inside a JSON string literal (backslash and
the double quote; no claim needs control-character escapes). -/
def jsonEscChar (c : Char) : List Char :=
  if c = backslashChar then [backslashChar, backslashChar]
  else if c = doubleQuoteChar then [backslashChar, doubleQuoteChar]
  else [c]

def jsonEscapeList : List Char → List Char
  | [] => []
  | c :: cs => jsonEscChar c ++ jsonEscapeList cs

mutual

/-- `json.dumps` with its default separators. -/
def jsonDumps : JsonValue → String
  | .null => "null"
  | .bool true => "true"
  | .bool false => "false"
  | .num n => toString n
  | .str s => String.mk (doubleQuoteChar :: (jsonEscapeList s.toList ++ [doubleQuoteChar]))
  | .arr elems => "[" ++ jsonDumpsSeq elems ++ "]"
  | .obj fields => "\x7b" ++ jsonDumpsFields fields ++ "\x7d"

def jsonDumpsSeq : List JsonValue → String
  | [] => ""
  | [v] => jsonDumps v
  | v :: w :: t => jsonDumps v ++ ", " ++ jsonDumpsSeq (w :: t)

def jsonDumpsFields : List (String × JsonValue) → String
  | [] => ""
  | [(k, v)] => jsonDumps (.str k) ++ ": " ++ jsonDumps v
  | (k, v) :: p :: t => jsonDumps (.str k) ++ ": " ++ jsonDumps v ++ ", " ++ jsonDumpsFields (p :: t)

end

/-- Python dict assignment `d[k] = v` on an insertion-ordered dict: replace
the existing binding in place, else append. -/
def dictSet (d : List (String × JsonValue)) (k : String) (v : JsonValue) :
    List (String × JsonValue) :=
  if d.any (fun p => p.1 = k) then
    d.map (fun p => if p.1 = k then (k, v) else p)
  else d ++ [(k, v)]

/-- Python `d.update(e)`. -/
def dictUpdate (d e : List (String × JsonValue)) : List (String × JsonValue) :=
  e.foldl (fun acc p => dictSet acc p.1 p.2) d

/-- f-string of line 70: `f"..." site:..."` built from the current `q`
parameter and the site string. -/
def siteRestrictedQuery (params : List (String × JsonValue)) (site : String) : String :=
  pyStr (pyGetD params "q" (.str "")) ++ " site:" ++ site

/-- The query parameters built on lines 59-75: base params, the optional
site restriction, then the caller's `query_params` override. -/
def searchParams (cfg : GoogleClientCfg) (query : String) (site : SiteArg)
    (num_results : Int) (kwargs : List (String × JsonValue)) :
    List (String × JsonValue) :=
  let params : List (String × JsonValue) :=
    [("key", .str cfg.api_key), ("cx", .str cfg.cx), ("q", .str query),
     ("num", .num (max 1 (min num_results 10)))]
  let params :=
    match site with
    | .strArg s =>
        if siteTruthy (.strArg s) && s ≠ "all" then
          dictSet params "q" (.str (siteRestrictedQuery params s))
        else params
    | .listArg _ => params
  match pyGetD kwargs "query_params" (.obj []) with
  | .obj query_params => dictUpdate params query_params
  | _ => params

/-- One row of the result list: `[link, json_str, title, site_domain]`
(line 107). -/
def searchRow (it : List (String × JsonValue)) : List JsonValue :=
  let link := pyGetD it "link" (.str "")
  let title := pyGetD it "title" (.str "")
  let snippet := pyGetD it "snippet" (.str "")
  let schema_obj : JsonValue :=
    .obj [("@type", .str "WebPage"), ("name", title), ("description", snippet),
          ("url", link), ("displayLink", pyGet it "displayLink")]
  [link, .str (jsonDumps schema_obj), title, .str (extract_domain_from_url link)]

/-- The loop body applied to one item: items that are not dicts make
`it.get` raise, and that exception propagates (it is outside the `try`). -/
def processItem (it : JsonValue) : Except Unit (List JsonValue) :=
  match it with
  | .obj fields => .ok (searchRow fields)
  | _ => .error ()

def processItemsList : List JsonValue → Except Unit (List (List JsonValue))
  | [] => .ok []
  | it :: rest =>
      match processItem it with
      | .error e => .error e
      | .ok row =>
          match processItemsList rest with
          | .error e => .error e
          | .ok rows => .ok (row :: rows)

/-- `items[:num_results]` as an iterable: lists slice to lists; strings
slice to their characters (each a one-character string); any other shape
raises a TypeError when sliced. -/
def itemsSeq (items : JsonValue) (num_results : Int) : Except Unit (List JsonValue) :=
  match items with
  | .arr elems => .ok (pySlice elems num_results)
  | .str s => .ok ((pySlice s.toList num_results).map (fun c => .str (String.mk [c])))
  | _ => .error ()

/-- Lines 89-110: read `items` from the decoded body (raising when the body
is not a dict), slice, and build the rows. -/
def processSearchData (num_results : Int) (data : JsonValue) :
    Except Unit (List (List JsonValue)) :=
  match data with
  | .obj fields =>
      match itemsSeq (pyGetD fields "items" (.arr [])) num_results with
      | .error e => .error e
      | .ok its => processItemsList its
  | _ => .error ()

/-- `GoogleCustomSearchClient.search` (lines 53-110).  `net` is the outcome
of the awaited GET + `raise_for_status` + `.json()`; both failure kinds are
caught and yield an empty result list (lines 82-87), while exceptions in
the item processing after the `try` block propagate.  The issued request is
returned alongside the results. -/
def search (cfg : GoogleClientCfg) (query : String) (site : SiteArg) (num_results : Int)
    (kwargs : List (String × JsonValue)) (net : Except NetError JsonValue) :
    HttpCall × Except Unit (List (List JsonValue)) :=
  let call : HttpCall :=
    { url := cfg.api_endpoint, params := searchParams cfg query site num_results kwargs
      timeout := 30 }
  match net with
  | .error _ => (call, .ok [])
  | .ok data => (call, processSearchData num_results data)

/-- `GoogleCustomSearchClient.search_all_sites` (lines 112-114): delegate
to `search` with the "all" site filter. -/
def search_all_sites (cfg : GoogleClientCfg) (query : String) (num_results : Int)
    (kwargs : List (String × JsonValue)) (net : Except NetError JsonValue) :
    HttpCall × Except Unit (List (List JsonValue)) :=
  search cfg query (.strArg "all") num_results kwargs net

/-! ### Formalisations of spec wording, for comparison with the code -/

/-- Modelled from the spec: "Resolution order (first present wins):
address, location, streetAddress, postalAddress" — the value of the first
of the four fields that is present in the mapping, later fields never
consulted. -/
def firstPresentCandidate (fields : List (String × JsonValue)) : Option JsonValue :=
  match fields.lookup "address" with
  | some v => some v
  | none =>
      match fields.lookup "location" with
      | some v => some v
      | none =>
          match fields.lookup "streetAddress" with
          | some v => some v
          | none => fields.lookup "postalAddress"

/-- `v.isArr` holds when the value is a list. -/
def JsonValue.isArr : JsonValue → Bool
  | .arr _ => true
  | _ => false

/-- Modelled from the spec: "a structured mapping resolves to the
comma-separated concatenation, in fixed order, of streetAddress,
addressLocality, addressRegion, postalCode (each included only when its
value is itself a scalar, not nested), followed by the country (the nested
name field when addressCountry is a mapping, or the string itself when it
is a plain non-structural string), with an empty concatenation treated as
absent".  None stands for "absent". -/
def claimedMappingResolution (fields : List (String × JsonValue)) : Option String :=
  let scalarParts := ADDRESS_FIELDS.filterMap
    (fun field => (fields.lookup field).bind
      (fun v => if v.isObj || v.isArr then none else some (pyStr v)))
  let country :=
    match fields.lookup "addressCountry" with
    | some (.obj c) =>
        match c.lookup "name" with
        | some nm => [pyStr nm]
        | none => []
    | some (.str s) => if s.toList.head? = some '\x7b' then [] else [s]
    | _ => []
  let allParts := scalarParts ++ country
  if allParts.isEmpty then none else some (String.intercalate ", " allParts)

/-- The structured-address components actually concatenated by the code:
every present component whose value is not a mapping, via its Python
string form. -/
def nonMappingParts (fields : List (String × JsonValue)) : List String :=
  ADDRESS_FIELDS.filterMap
    (fun field =>
      match fields.lookup field with
      | some v => if v.isObj then none else some (pyStr v)
      | none => none)

/-- The country text actually appended by the code: the `name` of a dict
country must itself be a string, else the join raises; a string country is
kept unless it starts with a brace. -/
def countryText (fields : List (String × JsonValue)) : Except Unit (List String) :=
  match fields.lookup "addressCountry" with
  | some (.obj country) =>
      match country.lookup "name" with
      | some (.str s) => .ok [s]
      | some _ => .error ()
      | none => .ok []
  | some (.str country) =>
      .ok (if country.toList.head? = some '\x7b' then [] else [country])
  | _ => .ok []

/-- The declarative form of the code's structured-address resolution, used
by the amended C3 statement. -/
def amendedMappingResolution (fields : List (String × JsonValue)) : Except Unit JsonValue :=
  match countryText fields with
  | .error e => .error e
  | .ok country =>
      let allParts := nonMappingParts fields ++ country
      if allParts.isEmpty then .ok .null
      else .ok (.str (String.intercalate ", " allParts))

/-- Whether an event is an invocation of the summarization capability. -/
def Event.isPrompt : Event → Bool
  | .invokedPrompt _ _ _ => true
  | _ => false

/-- Whether an event is the completion signal. -/
def Event.isMark : Event → Bool
  | .markedStepDone _ => true
  | _ => false

/-- Whether an event is an awaited `send_message` delivery. -/
def Event.isSent : Event → Bool
  | .sentMessage _ => true
  | _ => false

/-- Whether an event is a transcript append. -/
def Event.isAppend : Event → Bool
  | .appendedTranscript _ => true
  | _ => false

/-! ### Concrete fixtures -/

/-- A result without a `schema_object` entry. -/
def rNoSchema : RankedResult := { name := none, schema_object := none }

/-- A result whose `schema_object` is not a mapping. -/
def rBadSchema : RankedResult :=
  { name := some (.str "Bistro"), schema_object := some (.str "not a mapping") }

/-- A result with a plain string address. -/
def rGood : RankedResult :=
  { name := some (.str "Cafe")
    schema_object := some (.obj [("address", .str "1 Main St")]) }

/-- A result whose structured address carries a dict `addressCountry` with
a non-string `name`: joining its parts raises a TypeError inside the scan. -/
def rCrash : RankedResult :=
  { name := none
    schema_object :=
      some (.obj [("address", .obj [("addressCountry", .obj [("name", .num 1)])])]) }

/-- Two results, one resolvable address and one scan-aborting one. -/
def c1CexResults : List RankedResult := [rCrash, rGood]

/-- Two results, exactly one with an address (the N=2, k=1 boundary). -/
def c1WitnessResults : List RankedResult := [rGood, rNoSchema]

/-- A mapping in which `address` is present but empty while `location` is
non-empty. -/
def c2CexFields : List (String × JsonValue) :=
  [("address", .str ""), ("location", .str "Paris")]

/-- A structured address whose only component is a list value. -/
def c3CexFields : List (String × JsonValue) :=
  [("streetAddress", .arr [.num 1, .num 2])]

/-- The spec's first structured-address example. -/
def c3Example1 : List (String × JsonValue) :=
  [("streetAddress", .str "1 Main St"), ("addressLocality", .str "Springfield"),
   ("addressCountry", .obj [("name", .str "USA")])]

/-- The spec's second structured-address example. -/
def c3Example2 : List (String × JsonValue) := [("addressCountry", .str "USA")]

/-- The spec's string-address example. -/
def c3ExampleStr : String := "123 Elm, \x7bnested:junk\x7d"

/-- Five ranked results, for the truncation scenario. -/
def demoResults : List RankedResult := [rGood, rGood, rNoSchema, rBadSchema, rGood]

/-- A live handler in summarize mode holding five ranked results. -/
def stSummarize : HandlerState :=
  { connection_alive := true, query_done := false, generate_mode := "summarize"
    final_ranked_answers := demoResults, messages := [], summary := none
    conversation_id := "conv-1" }

/-- A live handler in the no-op mode. -/
def stNoneMode : HandlerState := { stSummarize with generate_mode := "none" }

/-- A handler whose connection died before the router ran. -/
def stDead : HandlerState := { stSummarize with connection_alive := false }

/-- A summarization capability that always answers with a summary field. -/
def respondSummary : List RankedResult → JsonValue :=
  fun _ => .obj [("summary", .str "Top picks")]

/-- A summarization capability that returns no usable response. -/
def respondNull : List RankedResult → JsonValue := fun _ => .null

/-- A client configuration fixture. -/
def cfgDemo : GoogleClientCfg :=
  { api_key := "k-1", cx := "cx-1"
    api_endpoint := "https://customsearch.googleapis.com/customsearch/v1" }

/-! ### Supporting lemmas -/

/-- The integer form of the quorum test agrees with the source's
true-division comparison `count >= total / 2 and count > 0` over ℚ. -/
theorem quorumCheck_rat (count total : Nat) :
    quorumCheck count total = true ↔
      ((total : ℚ) / 2 ≤ (count : ℚ) ∧ 0 < count) := by
  simp only [quorumCheck, Bool.and_eq_true, decide_eq_true_eq]
  rw [div_le_iff₀ (by norm_num : (0:ℚ) < 2)]
  constructor
  · rintro ⟨h1, hk⟩
    refine ⟨?_, hk⟩
    exact_mod_cast (by omega : total ≤ count * 2)
  · rintro ⟨h1, hk⟩
    refine ⟨?_, hk⟩
    have h1n : total ≤ count * 2 := by exact_mod_cast h1
    omega

/-- A processed result counts toward the address quorum exactly when its
location is produced. -/
theorem hasResolvedAddress_of_ok {r : RankedResult} {loc? : Option MapLocation}
    (h : processResult r = .ok loc?) : hasResolvedAddress r = loc?.isSome := by
  unfold hasResolvedAddress
  rw [h]
  cases loc? <;> rfl

/-- The scan succeeds exactly when every result is processed without an
exception. -/
theorem collectLocations_isOk (rs : List RankedResult) :
    (collectLocations rs).isOk = true ↔ ∀ r ∈ rs, (processResult r).isOk = true := by
  induction rs with
  | nil => simp [collectLocations, Except.isOk, Except.toBool]
  | cons r rs ih =>
      cases hp : processResult r with
      | error e =>
          simp only [collectLocations, hp, Except.isOk]
          constructor
          · intro h; cases h
          · intro h
            have hr := h r (List.mem_cons_self r rs)
            rw [hp] at hr
            cases hr
      | ok loc? =>
          cases hq : collectLocations rs with
          | error e =>
              simp only [collectLocations, hp, hq, Except.isOk]
              constructor
              · intro h; cases h
              · intro h
                have hall : ∀ r' ∈ rs, (processResult r').isOk = true :=
                  fun r' hm => h r' (List.mem_cons_of_mem _ hm)
                have h2 := ih.mpr hall
                rw [hq] at h2
                cases h2
          | ok locs =>
              simp only [collectLocations, hp, hq, Except.isOk]
              constructor
              · intro _ r' hm
                rcases List.mem_cons.mp hm with h | h
                · subst h; rw [hp]; rfl
                · have h2 := ih.mp (by rw [hq]; rfl)
                  exact h2 r' h
              · intro _; rfl

/-- When the scan succeeds, it collects exactly the addressed results. -/
theorem collectLocations_length {rs : List RankedResult} {locs : List MapLocation}
    (h : collectLocations rs = .ok locs) : locs.length = addressedCount rs := by
  induction rs generalizing locs with
  | nil =>
      simp only [collectLocations, Except.ok.injEq] at h
      subst h
      rfl
  | cons r rs ih =>
      simp only [collectLocations] at h
      cases hp : processResult r with
      | error e => rw [hp] at h; cases h
      | ok loc? =>
          rw [hp] at h
          cases hq : collectLocations rs with
          | error e => rw [hq] at h; cases h
          | ok locs' =>
              rw [hq] at h
              simp only [Except.ok.injEq] at h
              have hfr := hasResolvedAddress_of_ok hp
              cases loc? with
              | some l =>
                  subst h
                  simp only [Option.isSome] at hfr
                  simp [addressedCount, List.filter_cons, hfr]
                  simpa [addressedCount] using ih hq
              | none =>
                  subst h
                  simp only [Option.isSome] at hfr
                  simp [addressedCount, List.filter_cons, hfr]
                  simpa [addressedCount] using ih hq

/-- The classifier never lets an exception escape to its caller. -/
theorem check_raised_false (results : List RankedResult) (sf : Bool) :
    (check_and_send_map_message results sf).2 = false := by
  unfold check_and_send_map_message
  cases checkAndSendCore results with
  | error e => rfl
  | ok m =>
      cases m with
      | none => rfl
      | some mm => cases sf <;> rfl

/-- The classifier schedules at most one map send and nothing else. -/
theorem check_events_cases (results : List RankedResult) (sf : Bool) :
    (check_and_send_map_message results sf).1 = [] ∨
      ∃ m, (check_and_send_map_message results sf).1 = [Event.scheduledMapSend m] := by
  unfold check_and_send_map_message
  cases checkAndSendCore results with
  | error e => exact Or.inl rfl
  | ok m =>
      cases m with
      | none => exact Or.inl rfl
      | some mm =>
          cases sf with
          | true => exact Or.inl rfl
          | false => exact Or.inr ⟨mm, rfl⟩

/-- No classifier event is a prompt invocation, a completion signal, an
awaited send or a transcript append. -/
theorem check_events_benign (results : List RankedResult) (sf : Bool) :
    ∀ e ∈ (check_and_send_map_message results sf).1,
      e.isPrompt = false ∧ e.isMark = false ∧ e.isSent = false ∧ e.isAppend = false := by
  rcases check_events_cases results sf with h | ⟨m, h⟩ <;> rw [h]
  · intro e he; cases he
  · intro e he
    rcases List.mem_singleton.mp he with rfl
    exact ⟨rfl, rfl, rfl, rfl⟩

/-- The summarizer always leaves the ranked list truncated to its first
three entries. -/
theorem summarizeDo_ranked (st : HandlerState) (respond : List RankedResult → JsonValue) :
    (summarizeDo st respond).state.final_ranked_answers = st.final_ranked_answers.take 3 := by
  cases h : pyTruthy (respond (st.final_ranked_answers.take 3)) with
  | false => simp [summarizeDo, h]
  | true =>
      cases hg : pyGetItem (respond (st.final_ranked_answers.take 3)) "summary" with
      | error e => simp [summarizeDo, h, hg]
      | ok summary => simp [summarizeDo, h, hg]

/-- The summarizer's first action is always the prompt invocation, made on
the truncated ranked list. -/
theorem summarizeDo_events_head (st : HandlerState) (respond : List RankedResult → JsonValue) :
    ∃ tail, (summarizeDo st respond).events =
      Event.invokedPrompt SUMMARIZE_RESULTS_PROMPT_NAME 20 (st.final_ranked_answers.take 3)
        :: tail := by
  cases h : pyTruthy (respond (st.final_ranked_answers.take 3)) with
  | false => exact ⟨[], by simp [summarizeDo, h]⟩
  | true =>
      cases hg : pyGetItem (respond (st.final_ranked_answers.take 3)) "summary" with
      | error e => exact ⟨[], by simp [summarizeDo, h, hg]⟩
      | ok summary =>
          refine ⟨[Event.appendedTranscript (summaryMessage summary st.conversation_id),
                   Event.sentMessage (summaryMessage summary st.conversation_id),
                   Event.markedStepDone "post_ranking"], ?_⟩
          simp [summarizeDo, h, hg]

/-- The component-collecting fold is the filterMap of its inclusion rule. -/
theorem foldl_parts_eq (fields : List (String × JsonValue)) :
    ∀ (ks : List String) (acc : List JsonValue),
      ks.foldl (fun acc field =>
          match fields.lookup field with
          | some value => if value.isObj then acc else acc ++ [JsonValue.str (pyStr value)]
          | none => acc) acc
        = acc ++ (ks.filterMap (fun field =>
            match fields.lookup field with
            | some v => if v.isObj then none else some (pyStr v)
            | none => none)).map JsonValue.str := by
  intro ks
  induction ks with
  | nil => intro acc; simp
  | cons k ks ih =>
      intro acc
      simp only [List.foldl_cons, List.filterMap_cons]
      cases h : fields.lookup k with
      | none => simp [h, ih]
      | some v =>
          by_cases hv : v.isObj = true
          · simp [h, hv, ih]
          · have hv' : v.isObj = false := by simpa using hv
            simp [h, hv', ih, List.append_assoc]

/-- The imperative component loop equals its declarative description. -/
theorem scalarFieldParts_eq (fields : List (String × JsonValue)) :
    scalarFieldParts fields = (nonMappingParts fields).map JsonValue.str := by
  unfold scalarFieldParts nonMappingParts
  simpa using foldl_parts_eq fields ADDRESS_FIELDS []

/-- The country contribution either is a non-string dict `name` (and the
join will raise), or consists of the strings `countryText` describes. -/
theorem countryText_spec (fields : List (String × JsonValue)) :
    (∃ nm, countryText fields = .error () ∧ countryParts fields = [nm] ∧ nm.isStr = false) ∨
    (∃ l, countryText fields = .ok l ∧ countryParts fields = l.map JsonValue.str) := by
  unfold countryText countryParts
  cases h : fields.lookup "addressCountry" with
  | none => exact Or.inr ⟨[], rfl, rfl⟩
  | some v =>
      cases v with
      | obj country =>
          cases hn : country.lookup "name" with
          | none => exact Or.inr ⟨[], by simp [hn], by simp [hn]⟩
          | some nm =>
              cases nm with
              | str s => exact Or.inr ⟨[s], by simp [hn], by simp [hn]⟩
              | null => exact Or.inl ⟨.null, by simp [hn], by simp [hn], rfl⟩
              | bool b => exact Or.inl ⟨.bool b, by simp [hn], by simp [hn], rfl⟩
              | num n => exact Or.inl ⟨.num n, by simp [hn], by simp [hn], rfl⟩
              | arr elems => exact Or.inl ⟨.arr elems, by simp [hn], by simp [hn], rfl⟩
              | obj fs => exact Or.inl ⟨.obj fs, by simp [hn], by simp [hn], rfl⟩
      | str s =>
          by_cases hb : s.data.head? = some '\x7b'
          · exact Or.inr ⟨[], by simp [hb], by simp [hb]⟩
          · exact Or.inr ⟨[s], by simp [hb], by simp [hb]⟩
      | null => exact Or.inr ⟨[], rfl, rfl⟩
      | bool b => exact Or.inr ⟨[], rfl, rfl⟩
      | num n => exact Or.inr ⟨[], rfl, rfl⟩
      | arr elems => exact Or.inr ⟨[], rfl, rfl⟩

/-- Joining a list of strings succeeds and keeps the strings. -/
theorem strParts_map_str (l : List String) :
    strParts (l.map JsonValue.str) = .ok l := by
  induction l with
  | nil => rfl
  | cons s t ih => simp [strParts, ih, Except.map]

/-- Joining raises as soon as a trailing element is not a string. -/
theorem strParts_append_nonstr (l : List String) (nm : JsonValue)
    (h : nm.isStr = false) :
    strParts (l.map JsonValue.str ++ [nm]) = .error () := by
  induction l with
  | nil =>
      cases nm with
      | str s => simp [JsonValue.isStr] at h
      | null => rfl
      | bool b => rfl
      | num n => rfl
      | arr elems => rfl
      | obj fs => rfl
  | cons s t ih => simp [strParts, ih, Except.map]

/-! ### Claim theorems -/

/-- C1 (counterexample): the claimed quorum iff fails as stated.  On two
results, one with a plain resolved address and one whose structured address
makes the join raise, the addressed count is 1 of 2 — at least half under
true division — yet no map message is emitted, because the exception aborts
the whole scan inside the outer handler. -/
theorem classify_quorum_counterexample :
    c1CexResults ≠ [] ∧
      mapDecision c1CexResults = none ∧
      0 < addressedCount c1CexResults ∧
      ((c1CexResults.length : ℚ) / 2 ≤ (addressedCount c1CexResults : ℚ)) := by
  refine ⟨by simp [c1CexResults], rfl, by decide, ?_⟩
  have h1 : addressedCount c1CexResults = 1 := rfl
  have h2 : c1CexResults.length = 2 := rfl
  rw [h1, h2]
  norm_num

/-- C1 (amended): for every non-empty sequence of ranked results, classify
emits the map message iff every result's address resolution completes
without raising and the number of results with a resolved (truthy) address
is positive and at least half the total, under true (not floor)
division. -/
theorem classify_quorum_amended (results : List RankedResult) (hne : results ≠ []) :
    (mapDecision results).isSome = true ↔
      ((∀ r ∈ results, (processResult r).isOk = true) ∧
        0 < addressedCount results ∧
        ((results.length : ℚ) / 2 ≤ (addressedCount results : ℚ))) := by
  have hni : results.isEmpty = false := by
    cases results with
    | nil => exact absurd rfl hne
    | cons a l => rfl
  unfold mapDecision checkAndSendCore
  rw [hni]
  simp only [Bool.false_eq_true, if_false]
  cases hq : collectLocations results with
  | error e =>
      simp only [Option.isSome_none, Bool.false_eq_true, false_iff]
      rintro ⟨hall, -, -⟩
      have h2 := (collectLocations_isOk results).mpr hall
      rw [hq] at h2
      cases h2
  | ok locs =>
      have hlen : locs.length = addressedCount results := collectLocations_length hq
      have hall : ∀ r ∈ results, (processResult r).isOk = true :=
        (collectLocations_isOk results).mp (by rw [hq]; rfl)
      by_cases hquorum : quorumCheck locs.length results.length = true
      · simp only [hquorum, if_true, Option.isSome_some, true_iff]
        have hr := (quorumCheck_rat locs.length results.length).mp hquorum
        rw [hlen] at hr
        exact ⟨hall, hr.2, hr.1⟩
      · have hqf : quorumCheck locs.length results.length = false := by
          simpa using hquorum
        simp only [hqf, Bool.false_eq_true, if_false, Option.isSome_none, false_iff]
        rintro ⟨-, hk, hhalf⟩
        apply hquorum
        refine (quorumCheck_rat locs.length results.length).mpr ?_
        rw [hlen]
        exact ⟨hhalf, hk⟩

/-- C1 (witness): on the N=2, k=1 boundary instance the amended
equivalence applies and the classifier does emit. -/
theorem classify_quorum_amended_witness :
    c1WitnessResults ≠ [] ∧
      (mapDecision c1WitnessResults).isSome = true ∧
      ((mapDecision c1WitnessResults).isSome = true ↔
        ((∀ r ∈ c1WitnessResults, (processResult r).isOk = true) ∧
          0 < addressedCount c1WitnessResults ∧
          ((c1WitnessResults.length : ℚ) / 2 ≤ (addressedCount c1WitnessResults : ℚ)))) :=
  ⟨by simp [c1WitnessResults], rfl,
    classify_quorum_amended c1WitnessResults (by simp [c1WitnessResults])⟩

/-- C2 (counterexample): with `address` present but empty and `location`
non-empty, the code resolves to the `location` value, not to the value of
the first present field — presence alone does not win. -/
theorem address_order_counterexample :
    addressCandidate c2CexFields = .str "Paris" ∧
      firstPresentCandidate c2CexFields = some (.str "") ∧
      JsonValue.str "Paris" ≠ JsonValue.str "" := by
  refine ⟨rfl, rfl, ?_⟩
  intro h
  injection h with h'
  exact absurd h' (by decide)

/-- C2 (amended): the address candidate is the first of the four fields,
in the fixed order address, location, streetAddress, postalAddress, whose
value is truthy; fields present with falsy values are skipped, and when no
field is truthy the candidate is the (falsy) postalAddress lookup. -/
theorem address_candidate_first_truthy (fields : List (String × JsonValue)) :
    addressCandidate fields =
      (([pyGet fields "address", pyGet fields "location", pyGet fields "streetAddress",
          pyGet fields "postalAddress"].find? pyTruthy).getD
        (pyGet fields "postalAddress")) := by
  unfold addressCandidate pyOr
  cases h1 : pyTruthy (pyGet fields "address") <;>
    cases h2 : pyTruthy (pyGet fields "location") <;>
      cases h3 : pyTruthy (pyGet fields "streetAddress") <;>
        cases h4 : pyTruthy (pyGet fields "postalAddress") <;>
          simp [List.find?, h1, h2, h3, h4]

/-- C3 (counterexample): a structured address whose only component is a
list resolves to the Python string form of the list, although the claim
(scalar components only) calls for an empty concatenation, i.e. absence. -/
theorem resolution_scalar_counterexample :
    resolveAddressValue (.obj c3CexFields) = .ok (.str "[1, 2]") ∧
      claimedMappingResolution c3CexFields = none ∧
      (Except.ok (JsonValue.str "[1, 2]") : Except Unit JsonValue) ≠ .ok .null := by
  have harr : pyStr (.arr [.num 1, .num 2]) = "[1, 2]" := by
    simp [pyStr, pyRepr, pyReprSeq]
    rfl
  refine ⟨?_, by rfl, ?_⟩
  · have h0 : resolveAddressValue (.obj c3CexFields) =
        .ok (.str (pyStr (.arr [.num 1, .num 2]))) := by rfl
    rw [h0, harr]
  · intro h
    injection h with h'
    exact JsonValue.noConfusion h'

/-- C3 (amended): a structured mapping resolves to the comma-separated
concatenation, in fixed order, of the four components whenever their value
is not itself a mapping (via Python string conversion), followed by the
country (the nested name — which must be a string, else the join raises
and the scan aborts — when addressCountry is a mapping, or the string
itself when it does not start with a brace), empty concatenation treated
as absent; a string containing a brace resolves to its prefix before the
`", \x7b"` separator; the spec's three examples hold. -/
theorem resolution_amended :
    (∀ fields, resolveAddressValue (.obj fields) = amendedMappingResolution fields) ∧
      (∀ s, containsBrace s = true →
        resolveAddressValue (.str s) = .ok (.str (beforeDictMarker s))) ∧
      resolveAddressValue (.obj c3Example1) = .ok (.str "1 Main St, Springfield, USA") ∧
      resolveAddressValue (.obj c3Example2) = .ok (.str "USA") ∧
      resolveAddressValue (.str c3ExampleStr) = .ok (.str "123 Elm") := by
  refine ⟨?_, ?_, rfl, rfl, rfl⟩
  · intro fields
    rcases countryText_spec fields with ⟨nm, hct, hcp, hnm⟩ | ⟨l, hct, hcp⟩
    · simp only [resolveAddressValue, amendedMappingResolution, hct, hcp, scalarFieldParts_eq]
      have hne : (((nonMappingParts fields).map JsonValue.str) ++ [nm]).isEmpty = false := by
        simp
      simp [hne, pyJoin, strParts_append_nonstr _ _ hnm, Except.map]
    · simp only [resolveAddressValue, amendedMappingResolution, hct, hcp, scalarFieldParts_eq,
        ← List.map_append]
      cases hl : nonMappingParts fields ++ l with
      | nil => simp [hl]
      | cons a t =>
          have hs : strParts (JsonValue.str a :: List.map JsonValue.str t) = .ok (a :: t) := by
            simpa using strParts_map_str (a :: t)
          simp [hl, pyJoin, hs, Except.map]
  · intro s h
    simp [resolveAddressValue, h]

/-- C3 (witness): the amended string clause applied to the spec's string
example. -/
theorem resolution_amended_witness :
    containsBrace c3ExampleStr = true ∧
      resolveAddressValue (.str c3ExampleStr) = .ok (.str (beforeDictMarker c3ExampleStr)) :=
  ⟨rfl, resolution_amended.2.1 c3ExampleStr rfl⟩

/-- C4: with a live connection, any mode other than "summarize" (including
"none" and unknown modes) returns after classification with no prompt
invocation and no completion signal; in "summarize" mode the handler's
stored ranked list is destructively truncated to its first three entries
and the summarization capability is invoked on exactly that truncated
list. -/
theorem mode_dispatch (st : HandlerState) (respond : List RankedResult → JsonValue)
    (sf : Bool) (halive : st.connection_alive = true) :
    (st.generate_mode ≠ "summarize" →
      postRankingDo st respond sf =
        { events := (check_and_send_map_message st.final_ranked_answers sf).1
          state := st, raised := false } ∧
      ∀ e ∈ (postRankingDo st respond sf).events, e.isPrompt = false ∧ e.isMark = false) ∧
    (st.generate_mode = "summarize" →
      (postRankingDo st respond sf).state.final_ranked_answers =
        st.final_ranked_answers.take 3 ∧
      ∃ tail, (postRankingDo st respond sf).events =
        (check_and_send_map_message st.final_ranked_answers sf).1 ++
          Event.invokedPrompt SUMMARIZE_RESULTS_PROMPT_NAME 20
            (st.final_ranked_answers.take 3) :: tail) := by
  have hc := check_raised_false st.final_ranked_answers sf
  constructor
  · intro hmode
    have heq : postRankingDo st respond sf =
        { events := (check_and_send_map_message st.final_ranked_answers sf).1
          state := st, raised := false } := by
      unfold postRankingDo
      rw [halive]
      by_cases hnone : st.generate_mode = "none"
      · simp [hc, hnone]
      · simp [hc, hnone, hmode]
    refine ⟨heq, ?_⟩
    rw [heq]
    intro e he
    have hb := check_events_benign st.final_ranked_answers sf e he
    exact ⟨hb.1, hb.2.1⟩
  · intro hmode
    have heq : postRankingDo st respond sf =
        { events := (check_and_send_map_message st.final_ranked_answers sf).1 ++
            (summarizeDo st respond).events
          state := (summarizeDo st respond).state
          raised := (summarizeDo st respond).raised } := by
      unfold postRankingDo
      rw [halive]
      simp [hc, hmode]
    rw [heq]
    refine ⟨summarizeDo_ranked st respond, ?_⟩
    obtain ⟨tail, htail⟩ := summarizeDo_events_head st respond
    exact ⟨tail, by rw [htail]⟩

/-- C4 (witness): on a live summarize-mode handler with five results, the
stored ranked list ends up truncated to three entries. -/
theorem mode_dispatch_witness :
    stSummarize.connection_alive = true ∧
      (postRankingDo stSummarize respondSummary false).state.final_ranked_answers =
        stSummarize.final_ranked_answers.take 3 :=
  ⟨rfl, ((mode_dispatch stSummarize respondSummary false rfl).2 rfl).1⟩

/-- C5: on the successful summarize path the effects happen in a fixed
order — prompt invocation, transcript append of the summary message, its
awaited send, then the completion signal with the literal step identifier
"post_ranking" — and the completion signal occurs exactly once in the whole
pass, after delivery. -/
theorem summarize_ordering (st : HandlerState) (respond : List RankedResult → JsonValue)
    (sf : Bool) (summary : JsonValue)
    (halive : st.connection_alive = true)
    (hmode : st.generate_mode = "summarize")
    (htruthy : pyTruthy (respond (st.final_ranked_answers.take 3)) = true)
    (hsummary : pyGetItem (respond (st.final_ranked_answers.take 3)) "summary" = .ok summary) :
    postRankingDo st respond sf =
      { events := (check_and_send_map_message st.final_ranked_answers sf).1 ++
          [Event.invokedPrompt SUMMARIZE_RESULTS_PROMPT_NAME 20
             (st.final_ranked_answers.take 3),
           Event.appendedTranscript (summaryMessage summary st.conversation_id),
           Event.sentMessage (summaryMessage summary st.conversation_id),
           Event.markedStepDone "post_ranking"]
        state := { st with
          final_ranked_answers := st.final_ranked_answers.take 3
          summary := some summary
          messages := st.messages ++ [summaryMessage summary st.conversation_id] }
        raised := false } ∧
    (postRankingDo st respond sf).events.filter Event.isMark =
      [Event.markedStepDone "post_ranking"] := by
  have hc := check_raised_false st.final_ranked_answers sf
  have heq : postRankingDo st respond sf =
      { events := (check_and_send_map_message st.final_ranked_answers sf).1 ++
          [Event.invokedPrompt SUMMARIZE_RESULTS_PROMPT_NAME 20
             (st.final_ranked_answers.take 3),
           Event.appendedTranscript (summaryMessage summary st.conversation_id),
           Event.sentMessage (summaryMessage summary st.conversation_id),
           Event.markedStepDone "post_ranking"]
        state := { st with
          final_ranked_answers := st.final_ranked_answers.take 3
          summary := some summary
          messages := st.messages ++ [summaryMessage summary st.conversation_id] }
        raised := false } := by
    unfold postRankingDo summarizeDo
    rw [halive]
    simp [hc, hmode, htruthy, hsummary]
  refine ⟨heq, ?_⟩
  have hnil : ((check_and_send_map_message st.final_ranked_answers sf).1.filter
      Event.isMark) = [] := by
    rw [List.filter_eq_nil_iff]
    intro a ha
    have hb := (check_events_benign st.final_ranked_answers sf a ha).2.1
    simp [hb]
  rw [heq]
  simp [List.filter_append, hnil, Event.isMark]

/-- C5 (witness): the ordering theorem applied to the live summarize-mode
fixture, showing the completion signal fired exactly once. -/
theorem summarize_ordering_witness :
    stSummarize.connection_alive = true ∧
      stSummarize.generate_mode = "summarize" ∧
      pyTruthy (respondSummary (stSummarize.final_ranked_answers.take 3)) = true ∧
      pyGetItem (respondSummary (stSummarize.final_ranked_answers.take 3)) "summary" =
        .ok (.str "Top picks") ∧
      (postRankingDo stSummarize respondSummary false).events.filter Event.isMark =
        [Event.markedStepDone "post_ranking"] :=
  ⟨rfl, rfl, rfl, rfl,
    (summarize_ordering stSummarize respondSummary false (.str "Top picks")
      rfl rfl rfl rfl).2⟩

/-- C6: a null/empty summarization response stops the summarize path after
the prompt invocation: no transcript append, no send, no completion
signal, the transcript and summary fields unchanged, and no exception. -/
theorem null_response (st : HandlerState) (respond : List RankedResult → JsonValue)
    (hnull : pyTruthy (respond (st.final_ranked_answers.take 3)) = false) :
    summarizeDo st respond =
      { events := [Event.invokedPrompt SUMMARIZE_RESULTS_PROMPT_NAME 20
          (st.final_ranked_answers.take 3)]
        state := { st with final_ranked_answers := st.final_ranked_answers.take 3 }
        raised := false } ∧
    (summarizeDo st respond).state.messages = st.messages ∧
    (summarizeDo st respond).state.summary = st.summary ∧
    ∀ e ∈ (summarizeDo st respond).events,
      e.isAppend = false ∧ e.isSent = false ∧ e.isMark = false := by
  have heq : summarizeDo st respond =
      { events := [Event.invokedPrompt SUMMARIZE_RESULTS_PROMPT_NAME 20
          (st.final_ranked_answers.take 3)]
        state := { st with final_ranked_answers := st.final_ranked_answers.take 3 }
        raised := false } := by
    simp [summarizeDo, hnull]
  refine ⟨heq, by rw [heq], by rw [heq], ?_⟩
  rw [heq]
  intro e he
  rcases List.mem_singleton.mp he with rfl
  exact ⟨rfl, rfl, rfl⟩

/-- C6 (witness): the null-response theorem applied to the fixture, with
the transcript unchanged. -/
theorem null_response_witness :
    pyTruthy (respondNull (stSummarize.final_ranked_answers.take 3)) = false ∧
      (summarizeDo stSummarize respondNull).state.messages = stSummarize.messages :=
  ⟨rfl, (null_response stSummarize respondNull rfl).2.1⟩

/-- C7: with the liveness flag unset the router only sets the query-done
flag and returns — no events at all (no classification delivery, no
prompt, no send, no signal), no exception, and no other state change. -/
theorem liveness_abort (st : HandlerState) (respond : List RankedResult → JsonValue)
    (sf : Bool) (hdead : st.connection_alive = false) :
    postRankingDo st respond sf =
      { events := [], state := { st with query_done := true }, raised := false } := by
  unfold postRankingDo
  rw [hdead]
  rfl

/-- C7 (witness): the abort theorem applied to the dead-connection
fixture. -/
theorem liveness_abort_witness :
    stDead.connection_alive = false ∧
      postRankingDo stDead respondSummary false =
        { events := [], state := { stDead with query_done := true }, raised := false } :=
  ⟨rfl, liveness_abort stDead respondSummary false rfl⟩

/-- C8: the classification scan never lets an exception escape to its
caller, for every result sequence and even when scheduling the delivery
fails; a result with a missing schema_object, or with a schema_object that
is not a mapping, is merely excluded from the candidate set. -/
theorem classify_never_raises (results : List RankedResult) (sf : Bool) :
    (check_and_send_map_message results sf).2 = false ∧
    ∀ r ∈ results,
      (r.schema_object = none → processResult r = .ok none) ∧
      (∀ so, r.schema_object = some so → so.isObj = false → processResult r = .ok none) := by
  refine ⟨check_raised_false results sf, ?_⟩
  intro r _
  constructor
  · intro h
    simp [processResult, h]
  · intro so h hobj
    cases so with
    | obj fields => simp [JsonValue.isObj] at hobj
    | null => simp [processResult, h, resolveAddress, pyTruthy]
    | bool b =>
        cases b with
        | false => simp [processResult, h, resolveAddress, pyTruthy]
        | true => simp [processResult, h, resolveAddress, pyTruthy]
    | num n => simp [processResult, h, resolveAddress, pyTruthy]
    | str s => simp [processResult, h, resolveAddress, pyTruthy]
    | arr elems => simp [processResult, h, resolveAddress, pyTruthy]

/-- C8 (witness): applied to the five-result fixture containing a
schema-less result and a non-mapping schema_object. -/
theorem classify_never_raises_witness :
    (check_and_send_map_message demoResults false).2 = false ∧
      processResult rNoSchema = .ok none ∧
      processResult rBadSchema = .ok none :=
  ⟨(classify_never_raises demoResults false).1,
    ((classify_never_raises demoResults false).2 rNoSchema (by simp [demoResults])).1 rfl,
    ((classify_never_raises demoResults false).2 rBadSchema (by simp [demoResults])).2
      (.str "not a mapping") rfl rfl⟩

/-- C9: every search issues its request with a bounded timeout of 30
seconds, and when the round-trip fails — with an HTTP error or any
unexpected exception — the call returns an empty result list instead of
propagating the failure. -/
theorem search_fail_soft (cfg : GoogleClientCfg) (query : String) (site : SiteArg)
    (num_results : Int) (kwargs : List (String × JsonValue)) :
    (∀ net, (search cfg query site num_results kwargs net).1.timeout = 30) ∧
    (∀ e, (search cfg query site num_results kwargs (.error e)).2 =
      .ok ([] : List (List JsonValue))) := by
  constructor
  · intro net
    cases net <;> rfl
  · intro e
    rfl

/-- C10: `search_all_sites` is exactly `search` applied to the "all" site
filter with the same query, result count and keyword arguments. -/
theorem search_all_sites_eq (cfg : GoogleClientCfg) (query : String) (num_results : Int)
    (kwargs : List (String × JsonValue)) (net : Except NetError JsonValue) :
    search_all_sites cfg query num_results kwargs net =
      search cfg query (.strArg "all") num_results kwargs net := rfl

end NLWeb
